import Mathlib

/-!
# Verification of the credential-and-delivery subsystem

Shallow embedding of the core of the `github-app-template` repository:

* `src/webhooks.js` — `verifySignature` (HMAC-SHA256 webhook authenticity
  check) and `webhookHandler` (the per-delivery dispatch state machine);
* `src/auth.js` — `generateJWT` (signed-assertion minting) and
  `withRateLimit` (rate-limit-aware retry wrapper).

Bytes are `List Nat` (each entry a byte value), machine words are `Nat`
reduced mod `2 ^ 32` where the source's 32-bit arithmetic demands it, and
fallible JavaScript code becomes `Except`-valued functions.  Node's
`crypto` HMAC-SHA256 primitive is implemented concretely (FIPS 180-4) so
that every theorem can be evaluated on explicit inputs; external effects
(JSON parsing, network authentication, handler bodies) are oracle
parameters threaded through the dispatcher.
-/

deriving instance DecidableEq for Except

set_option maxRecDepth 100000

namespace GitHubAppTemplate

/-! ## Bytes and 32-bit words -/

/-- Byte strings, one `Nat` per byte. -/
abbrev Bytes := List Nat

/-- Truncate to a 32-bit word. -/
def w32 (n : Nat) : Nat := n % 4294967296

/-- Right-rotation of a 32-bit word by `n` places. -/
def rotr (n x : Nat) : Nat := w32 ((x >>> n) ||| (x <<< (32 - n)))

/-! ## SHA-256 (FIPS 180-4), structurally recursive so the kernel can
evaluate it on concrete inputs -/

def bigSigma0 (x : Nat) : Nat := (rotr 2 x) ^^^ (rotr 13 x) ^^^ (rotr 22 x)

def bigSigma1 (x : Nat) : Nat := (rotr 6 x) ^^^ (rotr 11 x) ^^^ (rotr 25 x)

def smallSigma0 (x : Nat) : Nat := (rotr 7 x) ^^^ (rotr 18 x) ^^^ (x >>> 3)

def smallSigma1 (x : Nat) : Nat := (rotr 17 x) ^^^ (rotr 19 x) ^^^ (x >>> 10)

def chNat (x y z : Nat) : Nat := (x &&& y) ^^^ ((x ^^^ 4294967295) &&& z)

def majNat (x y z : Nat) : Nat := (x &&& y) ^^^ (x &&& z) ^^^ (y &&& z)

/-- The 64 SHA-256 round constants. -/
def sha256K : List Nat :=
  [1116352408, 1899447441, 3049323471, 3921009573, 961987163,
   1508970993, 2453635748, 2870763221, 3624381080, 310598401,
   607225278, 1426881987, 1925078388, 2162078206, 2614888103,
   3248222580, 3835390401, 4022224774, 264347078, 604807628,
   770255983, 1249150122, 1555081692, 1996064986, 2554220882,
   2821834349, 2952996808, 3210313671, 3336571891, 3584528711,
   113926993, 338241895, 666307205, 773529912, 1294757372,
   1396182291, 1695183700, 1986661051, 2177026350, 2456956037,
   2730485921, 2820302411, 3259730800, 3345764771, 3516065817,
   3600352804, 4094571909, 275423344, 430227734, 506948616,
   659060556, 883997877, 958139571, 1322822218, 1537002063,
   1747873779, 1955562222, 2024104815, 2227730452, 2361852424,
   2428436474, 2756734187, 3204031479, 3329325298]

/-- The initial SHA-256 hash value. -/
def sha256InitH : List Nat :=
  [1779033703, 3144134277, 1013904242, 2773480762, 1359893119,
   2600822924, 528734635, 1541459225]

/-- Big-endian packing of four bytes into one word. -/
def beWord (b0 b1 b2 b3 : Nat) : Nat := ((b0 * 256 + b1) * 256 + b2) * 256 + b3

/-- Big-endian packing of a byte string into 32-bit words. -/
def bytesToWords : Bytes → List Nat
  | b0 :: b1 :: b2 :: b3 :: rest => beWord b0 b1 b2 b3 :: bytesToWords rest
  | _ => []

/-- Big-endian unpacking of one word into four bytes. -/
def wordToBytes (w : Nat) : Bytes :=
  [(w >>> 24) % 256, (w >>> 16) % 256, (w >>> 8) % 256, w % 256]

/-- Big-endian unpacking of a word list into a byte string. -/
def wordsToBytes (ws : List Nat) : Bytes := (ws.map wordToBytes).flatten

/-- The 64-bit big-endian length field of the SHA-256 padding. -/
def lengthBytes64 (bitLen : Nat) : Bytes :=
  [(bitLen >>> 56) % 256, (bitLen >>> 48) % 256, (bitLen >>> 40) % 256,
   (bitLen >>> 32) % 256, (bitLen >>> 24) % 256, (bitLen >>> 16) % 256,
   (bitLen >>> 8) % 256, bitLen % 256]

/-- SHA-256 message padding: `0x80`, zero bytes to 56 mod 64, then the
64-bit big-endian bit length. -/
def padMessage (msg : Bytes) : Bytes :=
  let len := msg.length
  let zeros := (64 + 55 - (len % 64)) % 64
  msg ++ [128] ++ List.replicate zeros 0 ++ lengthBytes64 (8 * len)

/-- One step of the message-schedule extension, on the schedule kept in
reverse order (most recent word first). -/
def scheduleStep (wrev : List Nat) : Nat :=
  w32 (smallSigma1 (wrev.getD 1 0) + wrev.getD 6 0 +
       smallSigma0 (wrev.getD 14 0) + wrev.getD 15 0)

/-- Extend the reversed message schedule by `n` words. -/
def extendSchedule (wrev : List Nat) : Nat → List Nat
  | 0 => wrev
  | n + 1 => extendSchedule (scheduleStep wrev :: wrev) n

/-- The full 64-word message schedule of one 64-byte block. -/
def msgSchedule (block : Bytes) : List Nat :=
  (extendSchedule (bytesToWords block).reverse 48).reverse

/-- One SHA-256 compression round; the state is the 8-word working list. -/
def roundStep (st : List Nat) (wk : Nat × Nat) : List Nat :=
  match st with
  | [a, b, c, d, e, f, g, h] =>
    let t1 := w32 (h + bigSigma1 e + chNat e f g + wk.2 + wk.1)
    let t2 := w32 (bigSigma0 a + majNat a b c)
    [w32 (t1 + t2), a, b, c, w32 (d + t1), e, f, g]
  | st => st

/-- Compress one 64-byte block into the running hash value. -/
def compressBlock (hs : List Nat) (block : Bytes) : List Nat :=
  let st := ((msgSchedule block).zip sha256K).foldl roundStep hs
  (hs.zip st).map (fun p => w32 (p.1 + p.2))

/-- Split a byte string into 64-byte blocks (`fuel` bounds the recursion;
callers pass the list length). -/
def splitBlocks (fuel : Nat) (l : Bytes) : List Bytes :=
  match fuel, l with
  | 0, _ => []
  | _, [] => []
  | f + 1, l => l.take 64 :: splitBlocks f (l.drop 64)

/-- SHA-256 of a byte string, as 32 bytes. -/
def sha256 (msg : Bytes) : Bytes :=
  wordsToBytes ((splitBlocks (padMessage msg).length (padMessage msg)).foldl
    compressBlock sha256InitH)

/-! ## HMAC-SHA256 (RFC 2104), the primitive behind `crypto.createHmac` -/

/-- HMAC-SHA256 with byte-string key and message. -/
def hmacSha256 (key msg : Bytes) : Bytes :=
  let k0 := if 64 < key.length then sha256 key else key
  let kp := k0 ++ List.replicate (64 - k0.length) 0
  let ipad := kp.map (fun b => b ^^^ 54)
  let opad := kp.map (fun b => b ^^^ 92)
  sha256 (opad ++ sha256 (ipad ++ msg))

/-! ## `verifySignature` (src/webhooks.js)

```js
function verifySignature(payload, signature, secret = process.env.WEBHOOK_SECRET) {
  if (!secret) { ... return true; }
  const hmac = crypto.createHmac('sha256', secret);
  const digest = 'sha256=' + hmac.update(payload, 'utf8').digest('hex');
  return crypto.timingSafeEqual(
    Buffer.from(signature || '', 'utf8'),
    Buffer.from(digest, 'utf8'));
}
```

`signature` and `secret` may be JavaScript `undefined`, modelled as
`Option Bytes` with `none` for an absent value; `!secret` is true for
both an absent and an empty secret.  Node's `crypto.timingSafeEqual`
returns the (constant-time) equality of two equal-length buffers and
**throws** a `RangeError` when the lengths differ, modelled as
`Except Unit Bool` with `.error ()` for the throw. -/

/-- Lower-case hexadecimal digit, as the ASCII byte `digest('hex')` emits. -/
def hexDigit (n : Nat) : Nat := if n < 10 then 48 + n else 87 + n

/-- Lower-case hexadecimal rendering of a byte string, as ASCII bytes. -/
def bytesToHex (bs : Bytes) : Bytes :=
  (bs.map (fun b => [hexDigit (b / 16), hexDigit (b % 16)])).flatten

/-- The ASCII bytes of the literal `"sha256="` prepended to the digest. -/
def sha256Label : Bytes := [115, 104, 97, 50, 53, 54, 61]

/-- Model of `crypto.timingSafeEqual`: equality of equal-length buffers, a thrown
`RangeError` (modelled `.error ()`) when the lengths differ. -/
def timingSafeEqual (a b : Bytes) : Except Unit Bool :=
  if a.length = b.length then .ok (decide (a = b)) else .error ()

/-- The digest string `verifySignature` compares the header against:
`"sha256=" + hex(HMAC-SHA256(secret, payload))`, as ASCII bytes. -/
def expectedDigest (secret payload : Bytes) : Bytes :=
  sha256Label ++ bytesToHex (hmacSha256 secret payload)

/-- Definition `verifySignature` from `src/webhooks.js`.  `.ok b` is a returned
boolean, `.error ()` a thrown exception. -/
def verifySignature (payload : Bytes) (signature : Option Bytes)
    (secret : Option Bytes) : Except Unit Bool :=
  match secret with
  | none => .ok true
  | some [] => .ok true
  | some s => timingSafeEqual ((signature.getD []))
      (expectedDigest s payload)

/-- Flip bit `i` of a byte string (bit `i % 8` of byte `i / 8`), the
"single-bit mutation" of the specification. -/
def flipBitAt : Bytes → Nat → Bytes
  | [], _ => []
  | b :: rest, i =>
    if i < 8 then (b ^^^ (1 <<< i)) :: rest
    else b :: flipBitAt rest (i - 8)

/-! ## `generateJWT` (src/auth.js)

```js
function generateJWT(appId, privateKey) {
  if (!appId || !privateKey) {
    throw new Error('GitHub App ID and private key are required');
  }
  const now = Math.floor(Date.now() / 1000);
  const payload = {
    iat: now - 60,
    exp: now + (10 * 60),
    iss: parseInt(appId, 10)
  };
  try { return jwt.sign(payload, privateKey, { algorithm: 'RS256' }); }
  catch (error) { throw new Error(`Failed to generate JWT: ...`); }
}
```

`appId` and `privateKey` may be `undefined`/`null` (`none`) or strings;
`!x` is true for an absent value and for the empty string.  `jwt.sign`
is an external library primitive, modelled as an oracle `sign` from the
claims to a token; the minted claims are returned alongside the token so
theorems can speak about the payload the source embeds in the JWT.
`parseInt(s, 10)` is modelled by `jsParseInt` (`none` for `NaN`). -/

/-- Model of JavaScript `parseInt(s, 10)` on a character list: optional
sign followed by the longest leading digit run; `none` models `NaN`. -/
def parseDigits (s : List Char) : Option Nat :=
  let ds := s.takeWhile Char.isDigit
  if ds.isEmpty then none else
    some (ds.foldl (fun a c => 10 * a + (c.toNat - 48)) 0)

/-- Model of `parseInt(·, 10)` after whitespace stripping, over a char list: an
optional leading sign, then the digit run. -/
def jsParseIntChars (s : List Char) : Option Int :=
  match s with
  | c :: rest =>
    if c = '-' then (parseDigits rest).map (fun n => -(n : Int))
    else if c = '+' then (parseDigits rest).map (fun n => (n : Int))
    else (parseDigits s).map (fun n => (n : Int))
  | [] => none

/-- Model of JavaScript `parseInt(s, 10)` on a string. -/
def jsParseInt (s : String) : Option Int :=
  jsParseIntChars (s.toList.dropWhile (fun c => c = ' '))

/-- JavaScript truthiness test `!x` for an optional string: true for an
absent value and for the empty string. -/
def jsFalsyStr : Option String → Bool
  | none => true
  | some "" => true
  | some _ => false

/-- The two failure kinds of `generateJWT`: the up-front configuration
check, and a wrapped `jwt.sign` failure. -/
inductive AuthError
  | configuration
  | signing
deriving DecidableEq, Repr

/-- The JWT payload minted by `generateJWT`; `iss` is `none` when
`parseInt` yields `NaN` on a non-numeric app id. -/
structure JwtClaims where
  iat : Int
  exp : Int
  iss : Option Int
deriving DecidableEq, Repr

/-- The payload literal of `generateJWT`, anchored to `now` (seconds). -/
def mintClaims (appId : Option String) (now : Int) : JwtClaims :=
  ⟨now - 60, now + 10 * 60, jsParseInt (appId.getD "")⟩

/-- Definition `generateJWT` from `src/auth.js`, with `jwt.sign` as the oracle
`sign`.  Returns the minted claims together with the signed token. -/
def generateJWT (sign : JwtClaims → Except Unit String)
    (appId privateKey : Option String) (now : Int) :
    Except AuthError (JwtClaims × String) :=
  if jsFalsyStr appId || jsFalsyStr privateKey then .error .configuration
  else
    match sign (mintClaims appId now) with
    | .ok tok => .ok (mintClaims appId now, tok)
    | .error _ => .error .signing

/-! ## `withRateLimit` (src/auth.js)

```js
async function withRateLimit(operation, retries = 3) {
  try { return await operation(); }
  catch (error) {
    if (error.status === 403 && error.headers['x-ratelimit-remaining'] === '0'
        && retries > 0) {
      const resetTime = parseInt(error.headers['x-ratelimit-reset']) * 1000;
      const waitTime = resetTime - Date.now() + 1000;
      await new Promise(resolve => setTimeout(resolve, waitTime));
      return withRateLimit(operation, retries - 1);
    }
    throw error;
  }
}
```

`operation` is modelled as a function from the attempt index to a
result, so each invocation may behave differently; `Date.now()` is the
oracle `clock`, also indexed by attempt.  `parseInt` of a missing
header is `NaN` (`none`), and `setTimeout` clamps a negative or `NaN`
delay to zero, which is how the recorded waits are computed. -/

/-- A thrown remote-call error: an HTTP-like status (absent for pure
network failures) and the two rate-limit headers, each possibly
missing. -/
structure JsError where
  status : Option Nat
  rateLimitRemaining : Option String
  rateLimitReset : Option String
deriving DecidableEq, Repr

/-- The rate-limit test of the `catch` block (without the retry-budget
conjunct): `error.status === 403 && headers['x-ratelimit-remaining'] === '0'`. -/
def isRateLimitSignal (e : JsError) : Bool :=
  e.status == some 403 && e.rateLimitRemaining == some "0"

/-- Computation `parseInt(error.headers['x-ratelimit-reset']) * 1000`; `none` models
`NaN`. -/
def resetTimeMs (e : JsError) : Option Int :=
  (match e.rateLimitReset with
   | some s => jsParseInt s
   | none => none).map (fun r => r * 1000)

/-- Computation `waitTime = resetTime - Date.now() + 1000`, propagating `NaN`. -/
def waitTimeMs (e : JsError) (now : Int) : Option Int :=
  (resetTimeMs e).map (fun r => r - now + 1000)

/-- The delay `setTimeout` actually waits: a negative or `NaN` timeout
is clamped to zero. -/
def actualDelay : Option Int → Int
  | some v => max v 0
  | none => 0

/-- Observable outcome of a `withRateLimit` run: the final result, the
number of invocations of the wrapped operation, and the waits slept. -/
structure RLResult (α : Type) where
  result : Except JsError α
  invocations : Nat
  waits : List Int
deriving DecidableEq, Repr

/-- The recursion of `withRateLimit`, structural on the remaining retry
budget; `attempt` indexes the oracle calls. -/
def withRateLimitGo (op : Nat → Except JsError α) (clock : Nat → Int) :
    Nat → Nat → RLResult α
  | retries, attempt =>
    match op attempt with
    | .ok a => ⟨.ok a, 1, []⟩
    | .error e =>
      if isRateLimitSignal e then
        match retries with
        | 0 => ⟨.error e, 1, []⟩
        | r + 1 =>
          let w := actualDelay (waitTimeMs e (clock attempt))
          let rest := withRateLimitGo op clock r (attempt + 1)
          ⟨rest.result, rest.invocations + 1, w :: rest.waits⟩
      else ⟨.error e, 1, []⟩

/-- Definition `withRateLimit` from `src/auth.js` (the source defaults `retries`
to 3). -/
def withRateLimit (op : Nat → Except JsError α) (clock : Nat → Int)
    (retries : Nat) : RLResult α :=
  withRateLimitGo op clock retries 0

/-! ## `webhookHandler` (src/webhooks.js)

The per-delivery dispatcher: verify the signature (401 when it returns
false), `JSON.parse` the body, exchange credentials for a truthy
`data.installation?.id` (500 when that fails, before any handler), then
route on the `x-github-event` header.  Every uncaught throw — from
`verifySignature`, `JSON.parse` or a handler body — lands in the outer
`catch`, which answers 500.  `JSON.parse`, `authenticateInstallation`
and the four handler bodies are external effects, modelled as oracle
fields of `Env`; the trace records credential exchanges and handler
invocations in order. -/

/-- The slice of a parsed webhook payload the dispatcher inspects:
`data.installation?.id` (absent when the payload has no installation). -/
structure ParsedPayload where
  installationId : Option Nat
deriving DecidableEq, Repr

/-- Observable dispatcher effects, in execution order. -/
inductive TraceEv
  | auth (installationId : Nat)
  | issues
  | pullRequest
  | push
  | installation
deriving DecidableEq, Repr

/-- Whether a trace event is a handler invocation (not a credential
exchange). -/
def TraceEv.isHandlerCall : TraceEv → Bool
  | .auth _ => false
  | _ => true

/-- Number of handler invocations recorded in a trace. -/
def handlerCalls (tr : List TraceEv) : Nat :=
  (tr.filter TraceEv.isHandlerCall).length

/-- Oracles for the dispatcher's external effects: `JSON.parse`,
`authenticateInstallation` from `src/auth.js` (network-dependent), and
the four event-handler bodies.  An `.error` is a thrown exception. -/
structure Env where
  jsonParse : Bytes → Except Unit ParsedPayload
  authenticateInstallation : Nat → Except Unit Unit
  handleIssues : ParsedPayload → Except Unit Unit
  handlePullRequest : ParsedPayload → Except Unit Unit
  handlePush : ParsedPayload → Except Unit Unit
  handleInstallation : ParsedPayload → Except Unit Unit

/-- The `switch (event)` of `webhookHandler` (a JavaScript string switch
is a chain of equality tests): route to the matching handler; a handler
throw reaches the outer `catch` (500), otherwise the dispatch answers
200.  An unrecognized or absent event header answers 200 with no handler
invocation; `installation` and `installation_repositories` share a
handler. -/
def dispatchEvent (env : Env) (event : Option String) (data : ParsedPayload)
    (tr : List TraceEv) : Nat × List TraceEv :=
  if event = some "issues" then
    match env.handleIssues data with
    | .ok _ => (200, tr ++ [.issues])
    | .error _ => (500, tr ++ [.issues])
  else if event = some "pull_request" then
    match env.handlePullRequest data with
    | .ok _ => (200, tr ++ [.pullRequest])
    | .error _ => (500, tr ++ [.pullRequest])
  else if event = some "push" then
    match env.handlePush data with
    | .ok _ => (200, tr ++ [.push])
    | .error _ => (500, tr ++ [.push])
  else if event = some "installation" ∨ event = some "installation_repositories" then
    match env.handleInstallation data with
    | .ok _ => (200, tr ++ [.installation])
    | .error _ => (500, tr ++ [.installation])
  else (200, tr)

/-- The handler body the `switch` routes `event` to (`.ok ()` for an
unrecognized event, which invokes no handler). -/
def routedHandler (env : Env) (event : Option String)
    (data : ParsedPayload) : Except Unit Unit :=
  if event = some "issues" then env.handleIssues data
  else if event = some "pull_request" then env.handlePullRequest data
  else if event = some "push" then env.handlePush data
  else if event = some "installation" ∨ event = some "installation_repositories" then
    env.handleInstallation data
  else .ok ()

/-- The handler-invocation trace the `switch` produces for `event`. -/
def routedTrace (event : Option String) : List TraceEv :=
  if event = some "issues" then [.issues]
  else if event = some "pull_request" then [.pullRequest]
  else if event = some "push" then [.push]
  else if event = some "installation" ∨ event = some "installation_repositories" then
    [.installation]
  else []

/-- Definition `webhookHandler` from `src/webhooks.js`: the HTTP status answered
for one delivery and the trace of credential exchanges and handler
invocations.  A thrown `verifySignature` or `JSON.parse` lands in the
outer `catch` (500); `if (installationId)` is JavaScript truthiness, so
only a present non-zero id triggers the credential exchange. -/
def webhookHandler (env : Env) (secret signature : Option Bytes)
    (event : Option String) (body : Bytes) : Nat × List TraceEv :=
  match verifySignature body signature secret with
  | .error _ => (500, [])
  | .ok false => (401, [])
  | .ok true =>
    match env.jsonParse body with
    | .error _ => (500, [])
    | .ok data =>
      match data.installationId with
      | some (i + 1) =>
        match env.authenticateInstallation (i + 1) with
        | .error _ => (500, [.auth (i + 1)])
        | .ok _ => dispatchEvent env event data [.auth (i + 1)]
      | _ => dispatchEvent env event data []

/-- Concrete oracle set where every external effect succeeds and parsing
yields installation id 42. -/
def envOk : Env :=
  ⟨fun _ => .ok ⟨some 42⟩, fun _ => .ok (), fun _ => .ok (),
   fun _ => .ok (), fun _ => .ok (), fun _ => .ok ()⟩

/-- Concrete oracle set where `JSON.parse` throws. -/
def envParseErr : Env :=
  ⟨fun _ => .error (), fun _ => .ok (), fun _ => .ok (),
   fun _ => .ok (), fun _ => .ok (), fun _ => .ok ()⟩

/-- Concrete oracle set where the credential exchange fails. -/
def envAuthErr : Env :=
  ⟨fun _ => .ok ⟨some 42⟩, fun _ => .error (), fun _ => .ok (),
   fun _ => .ok (), fun _ => .ok (), fun _ => .ok ()⟩

/-- A concrete rate-limit error: 403, no remaining calls, reset at epoch
second 5. -/
def rlError : JsError := ⟨some 403, some "0", some "5"⟩

/-- A concrete malformed 403: the rate-limit headers are absent. -/
def forbiddenNoHeaders : JsError := ⟨some 403, none, none⟩

/-! ## Theorems -/

/-- A list of digits is its own longest digit run. -/
lemma takeWhile_isDigit_eq_self {l : List Char}
    (h : l.all Char.isDigit = true) : l.takeWhile Char.isDigit = l := by
  induction l with
  | nil => rfl
  | cons c t ih =>
    simp only [List.all_cons, Bool.and_eq_true] at h
    simp [List.takeWhile_cons, h.1, ih h.2]

/-- On a non-empty all-digit string, the `parseInt` model returns the
decimal value of the digit run. -/
lemma jsParseInt_all_digits (s : String) (h1 : s.toList ≠ [])
    (h2 : s.toList.all Char.isDigit = true) :
    jsParseInt s =
      some ((s.toList.foldl (fun a c => 10 * a + (c.toNat - 48)) 0 : Nat) : Int) := by
  unfold jsParseInt jsParseIntChars parseDigits
  cases hl : s.toList with
  | nil => exact absurd hl h1
  | cons c t =>
    rw [hl] at h2
    simp only [List.all_cons, Bool.and_eq_true] at h2
    have hc : c.isDigit = true := h2.1
    have hcs : ¬(c = ' ') := by
      intro h; rw [h] at hc; exact absurd hc (by decide)
    have hcm : ¬(c = '-') := by
      intro h; rw [h] at hc; exact absurd hc (by decide)
    have hcp : ¬(c = '+') := by
      intro h; rw [h] at hc; exact absurd hc (by decide)
    rw [List.dropWhile_cons]
    simp only [decide_eq_true_eq, hcs, if_false, hcm, hcp]
    rw [takeWhile_isDigit_eq_self (by simp [List.all_cons, hc, h2.2])]
    simp

/-- Claim C3: for every truthy (present, non-empty) appId and privateKey
and every timestamp `now`, the minted payload has `iat = now - 60`,
`exp = now + 600` (hence `exp - iat = 660` exactly) and issuer
`parseInt(appId, 10)` — on an all-digit appId, exactly its decimal
value — and `generateJWT` signs exactly this payload. -/
theorem C3_mint_window_and_issuer (sign : JwtClaims → Except Unit String)
    (appId privateKey : Option String) (now : Int) (tok : String)
    (ha : jsFalsyStr appId = false) (hk : jsFalsyStr privateKey = false)
    (hsig : sign (mintClaims appId now) = .ok tok) :
    (mintClaims appId now).iat = now - 60 ∧
    (mintClaims appId now).exp = now + 600 ∧
    (mintClaims appId now).exp - (mintClaims appId now).iat = 660 ∧
    (mintClaims appId now).iss = jsParseInt (appId.getD "") ∧
    (∀ s : String, appId = some s → s.toList ≠ [] →
      s.toList.all Char.isDigit = true →
      (mintClaims appId now).iss =
        some ((s.toList.foldl (fun a c => 10 * a + (c.toNat - 48)) 0 : Nat) : Int)) ∧
    generateJWT sign appId privateKey now = .ok (mintClaims appId now, tok) := by
  refine ⟨rfl, by norm_num [mintClaims], by simp [mintClaims], rfl, ?_, ?_⟩
  · intro s hs h1 h2
    rw [hs]
    simpa [mintClaims] using jsParseInt_all_digits s h1 h2
  · unfold generateJWT
    rw [ha, hk]
    simp [hsig]

/-- Witness for C3 at appId "12345", key "key", now 1000. -/
theorem C3_mint_window_and_issuer_witness :
    (mintClaims (some "12345") 1000).iat = 940 ∧
    (mintClaims (some "12345") 1000).exp = 1600 ∧
    (mintClaims (some "12345") 1000).iss = some 12345 ∧
    generateJWT (fun _ => .ok "tok") (some "12345") (some "key") 1000 =
      .ok (mintClaims (some "12345") 1000, "tok") := by
  have h := C3_mint_window_and_issuer (fun _ => .ok "tok")
    (some "12345") (some "key") 1000 "tok" (by decide) (by decide) rfl
  refine ⟨by rw [h.1]; norm_num, by rw [h.2.1]; norm_num, ?_, h.2.2.2.2.2⟩
  · rw [h.2.2.2.2.1 "12345" rfl (by decide) (by decide)]
    rfl

/-- Claim C4: an absent or empty appId or privateKey makes `generateJWT`
fail with the configuration error (never the signing error), for every
signing oracle — the result does not depend on the signer at all, so the
check precedes any cryptographic work. -/
theorem C4_configuration_checked_first (appId privateKey : Option String)
    (now : Int)
    (h : jsFalsyStr appId = true ∨ jsFalsyStr privateKey = true) :
    ∀ sign : JwtClaims → Except Unit String,
      generateJWT sign appId privateKey now = .error .configuration := by
  intro sign
  unfold generateJWT
  rcases h with h | h <;> simp [h]

/-- Witness for C4: `mint(null, key)` and `mint(id, null)` (and an empty
appId), each under a signer that would itself fail. -/
theorem C4_configuration_checked_first_witness :
    generateJWT (fun _ => .error ()) none (some "key") 0 = .error .configuration ∧
    generateJWT (fun _ => .ok "t") (some "12345") none 0 = .error .configuration ∧
    generateJWT (fun _ => .error ()) (some "") (some "key") 0 = .error .configuration :=
  ⟨C4_configuration_checked_first none (some "key") 0 (Or.inl (by decide)) _,
   C4_configuration_checked_first (some "12345") none 0 (Or.inr (by decide)) _,
   C4_configuration_checked_first (some "") (some "key") 0 (Or.inl (by decide)) _⟩

/-- Claim C5 counterexample: an error carrying status 403 and a
remaining-calls indicator of `'0'` but no reset timestamp is not a
rate-limit signal as the claim defines one (the claim requires a reset
timestamp), so the claim promises exactly 1 invocation, no wait and
immediate propagation — yet the code's two-conjunct test fires anyway,
`parseInt(undefined)` makes the wait `NaN`, `setTimeout` treats it as
zero, and the operation is retried to exhaustion: 4 invocations with
three zero-millisecond waits under budget 3. -/
theorem C5_no_reset_still_retried :
    isRateLimitSignal ⟨some 403, some "0", none⟩ = true ∧
    withRateLimit
      (fun _ => (.error ⟨some 403, some "0", none⟩ : Except JsError Unit))
      (fun _ => 0) 3 =
      ⟨.error ⟨some 403, some "0", none⟩, 4, [0, 0, 0]⟩ :=
  ⟨rfl, by decide⟩

/-- Claim C5 amended: the retry test the invoker applies is only
"status 403 and remaining-calls `'0'`" — the reset timestamp is not
consulted.  A first-attempt failure that does not match that test
(wrong or absent status, or remaining-calls header missing or non-zero)
is never retried: exactly one invocation, no wait, and the error object
propagates unchanged, whatever the retry budget.  (A 403 with remaining
`'0'` but no reset timestamp is instead retried with zero wait, as the
counterexample shows.) -/
theorem C5_non_rate_limit_propagates (op : Nat → Except JsError α)
    (clock : Nat → Int) (retries : Nat) (e : JsError)
    (h0 : op 0 = .error e) (hnr : isRateLimitSignal e = false) :
    withRateLimit op clock retries = ⟨.error e, 1, []⟩ := by
  unfold withRateLimit withRateLimitGo
  rw [h0]
  simp [hnr]

/-- Witness for C5: a network failure without status, a 500, and a 403
whose rate-limit headers are missing, each with budget 3. -/
theorem C5_non_rate_limit_propagates_witness :
    withRateLimit (fun _ => (.error ⟨none, none, none⟩ : Except JsError Unit))
      (fun _ => 0) 3 = ⟨.error ⟨none, none, none⟩, 1, []⟩ ∧
    withRateLimit (fun _ => (.error ⟨some 500, none, none⟩ : Except JsError Unit))
      (fun _ => 0) 3 = ⟨.error ⟨some 500, none, none⟩, 1, []⟩ ∧
    withRateLimit (fun _ => (.error forbiddenNoHeaders : Except JsError Unit))
      (fun _ => 0) 3 = ⟨.error forbiddenNoHeaders, 1, []⟩ :=
  ⟨C5_non_rate_limit_propagates _ _ 3 _ rfl (by decide),
   C5_non_rate_limit_propagates _ _ 3 _ rfl (by decide),
   C5_non_rate_limit_propagates _ _ 3 _ rfl (by decide)⟩

/-- The retry recursion is bounded by the decreasing budget: at most
`retries + 1` invocations, whatever the operation does. -/
lemma withRateLimitGo_invocations_le (op : Nat → Except JsError α)
    (clock : Nat → Int) :
    ∀ retries attempt,
      (withRateLimitGo op clock retries attempt).invocations ≤ retries + 1
  | 0, attempt => by
    unfold withRateLimitGo
    cases h : op attempt with
    | ok a => simp
    | error e => cases hrl : isRateLimitSignal e <;> simp [hrl]
  | r + 1, attempt => by
    unfold withRateLimitGo
    cases h : op attempt with
    | ok a => simp
    | error e =>
      cases hrl : isRateLimitSignal e with
      | false => simp [hrl]
      | true =>
        have := withRateLimitGo_invocations_le op clock r (attempt + 1)
        simp only [hrl, if_true]
        omega

/-- Under a persistent rate-limit signal, the budget is consumed whole:
exactly `retries + 1` invocations, and the error of the last attempt is
what propagates. -/
lemma withRateLimitGo_exhausts (op : Nat → Except JsError α)
    (clock : Nat → Int)
    (h : ∀ k, ∃ e, op k = .error e ∧ isRateLimitSignal e = true) :
    ∀ retries attempt,
      (withRateLimitGo op clock retries attempt).invocations = retries + 1 ∧
      ∃ e, op (attempt + retries) = .error e ∧
        (withRateLimitGo op clock retries attempt).result = .error e
  | 0, attempt => by
    obtain ⟨e, he, hrl⟩ := h attempt
    unfold withRateLimitGo
    rw [he]
    simp only [hrl, if_true]
    exact ⟨trivial, e, by simpa using he, rfl⟩
  | r + 1, attempt => by
    obtain ⟨e, he, hrl⟩ := h attempt
    obtain ⟨ih1, e', he', hres⟩ := withRateLimitGo_exhausts op clock h r (attempt + 1)
    unfold withRateLimitGo
    rw [he]
    simp only [hrl, if_true]
    refine ⟨by simpa using ih1, e', ?_, by simpa using hres⟩
    have harith : attempt + (r + 1) = attempt + 1 + r := by omega
    rw [harith]
    exact he'

/-- Claim C6: an operation failing with a rate-limit signal on every
attempt under budget 3 is invoked exactly 4 times (1 initial + 3
retries) and the most recent rate-limit error propagates; in general the
recursion is bounded by the decreasing budget, at most `retries + 1`
invocations. -/
theorem C6_budget_exhaustion (op : Nat → Except JsError α)
    (clock : Nat → Int)
    (h : ∀ k, ∃ e, op k = .error e ∧ isRateLimitSignal e = true) :
    (withRateLimit op clock 3).invocations = 4 ∧
    (∃ e, op 3 = .error e ∧ (withRateLimit op clock 3).result = .error e) ∧
    ∀ (op2 : Nat → Except JsError α) (clock2 : Nat → Int) (r : Nat),
      (withRateLimit op2 clock2 r).invocations ≤ r + 1 := by
  obtain ⟨h1, e, he, hres⟩ := withRateLimitGo_exhausts op clock h 3 0
  exact ⟨h1, ⟨e, by simpa using he, hres⟩,
    fun op2 clock2 r => withRateLimitGo_invocations_le op2 clock2 r 0⟩

/-- Witness for C6: the concrete persistent rate-limit error. -/
theorem C6_budget_exhaustion_witness :
    (withRateLimit (fun _ => (.error rlError : Except JsError Unit))
      (fun _ => 0) 3).invocations = 4 ∧
    (withRateLimit (fun _ => (.error rlError : Except JsError Unit))
      (fun _ => 0) 3).result = .error rlError := by
  have h := C6_budget_exhaustion (fun _ => (.error rlError : Except JsError Unit))
    (fun _ => 0) (fun k => ⟨rlError, rfl, by decide⟩)
  obtain ⟨h1, ⟨e, he, hres⟩, _⟩ := h
  exact ⟨h1, by rwa [(Except.error.inj he : rlError = e)] at hres ⊢⟩

/-- Claim C7: on a rate-limit failure with remaining budget, the wait
before the retry is `resetAt` (milliseconds) minus the current time plus
the fixed 1-second buffer, clamped at zero: the computed value when
positive, an immediate retry when it is zero or negative. -/
theorem C7_wait_duration (op : Nat → Except JsError α) (clock : Nat → Int)
    (r : Nat) (e : JsError) (reset : Int)
    (h0 : op 0 = .error e) (hrl : isRateLimitSignal e = true)
    (hreset : resetTimeMs e = some reset) :
    (withRateLimit op clock (r + 1)).waits.head? =
      some (max (reset - clock 0 + 1000) 0) ∧
    (0 < reset - clock 0 + 1000 →
      (withRateLimit op clock (r + 1)).waits.head? =
        some (reset - clock 0 + 1000)) ∧
    (reset - clock 0 + 1000 ≤ 0 →
      (withRateLimit op clock (r + 1)).waits.head? = some 0) := by
  have hmain : (withRateLimit op clock (r + 1)).waits.head? =
      some (max (reset - clock 0 + 1000) 0) := by
    unfold withRateLimit withRateLimitGo
    rw [h0]
    simp [hrl, actualDelay, waitTimeMs, hreset]
  refine ⟨hmain, fun hpos => ?_, fun hneg => ?_⟩
  · rw [hmain]
    congr 1
    omega
  · rw [hmain]
    congr 1
    omega

/-- Witness for C7: reset at epoch second 5 gives a 6-second wait from
time 0 and an immediate (zero) retry from a current time past the reset. -/
theorem C7_wait_duration_witness :
    (withRateLimit (fun _ => (.error rlError : Except JsError Unit))
      (fun _ => 0) 3).waits.head? = some 6000 ∧
    (withRateLimit (fun _ => (.error rlError : Except JsError Unit))
      (fun _ => 999999) 3).waits.head? = some 0 := by
  have h1 := C7_wait_duration (fun _ => (.error rlError : Except JsError Unit))
    (fun _ => 0) 2 rlError 5000 rfl (by decide) (by decide)
  have h2 := C7_wait_duration (fun _ => (.error rlError : Except JsError Unit))
    (fun _ => 999999) 2 rlError 5000 rfl (by decide) (by decide)
  exact ⟨by simpa using h1.2.1 (by norm_num), by simpa using h2.2.2 (by norm_num)⟩

/-- The `switch` factored: status 200 exactly when the routed handler
(or the no-op for an unknown event) returns, and the trace extends by
the routed handler's invocation. -/
lemma dispatchEvent_eq (env : Env) (event : Option String)
    (data : ParsedPayload) (tr : List TraceEv) :
    dispatchEvent env event data tr =
      (if routedHandler env event data = .ok () then 200 else 500,
       tr ++ routedTrace event) := by
  unfold dispatchEvent routedHandler routedTrace
  by_cases h1 : event = some "issues"
  · cases he : env.handleIssues data <;> simp [h1, he]
  · by_cases h2 : event = some "pull_request"
    · cases he : env.handlePullRequest data <;> simp [h1, h2, he]
    · by_cases h3 : event = some "push"
      · cases he : env.handlePush data <;> simp [h1, h2, h3, he]
      · by_cases h4 : event = some "installation" ∨
            event = some "installation_repositories"
        · cases he : env.handleInstallation data <;> simp [h1, h2, h3, h4, he]
        · simp [h1, h2, h3, h4]

/-- Claim C8: a delivery on which signature verification returns false
is answered 401 with an empty effect trace — no credential exchange and
zero handler invocations. -/
theorem C8_rejected_delivery (env : Env) (secret signature : Option Bytes)
    (event : Option String) (body : Bytes)
    (h : verifySignature body signature secret = .ok false) :
    webhookHandler env secret signature event body = (401, []) ∧
    handlerCalls (webhookHandler env secret signature event body).2 = 0 := by
  have hmain : webhookHandler env secret signature event body = (401, []) := by
    unfold webhookHandler
    rw [h]
  exact ⟨hmain, by rw [hmain]; rfl⟩

/-- Witness for C8: a wrong (bit-flipped) signature over body `[0]`
under secret "s" is rejected with no handler run. -/
theorem C8_rejected_delivery_witness :
    webhookHandler envOk (some [115])
      (some (flipBitAt (expectedDigest [115] [0]) 0)) (some "issues") [0] =
      (401, []) :=
  (C8_rejected_delivery envOk (some [115])
    (some (flipBitAt (expectedDigest [115] [0]) 0)) (some "issues") [0]
    (by decide)).1

/-- Claim C10: whenever the parsed payload carries a (truthy)
installation id, the dispatcher exchanges credentials before routing —
the exchange heads the effect trace for every event type, including
those whose handlers ignore the credential — and an exchange failure
answers 500 with zero handler invocations. -/
theorem C10_exchange_before_routing (env : Env)
    (secret signature : Option Bytes) (event : Option String)
    (body : Bytes) (data : ParsedPayload) (i : Nat)
    (hv : verifySignature body signature secret = .ok true)
    (hp : env.jsonParse body = .ok data)
    (hid : data.installationId = some (i + 1)) :
    (∃ rest, (webhookHandler env secret signature event body).2 =
      .auth (i + 1) :: rest) ∧
    (env.authenticateInstallation (i + 1) = .error () →
      webhookHandler env secret signature event body = (500, [.auth (i + 1)]) ∧
      handlerCalls (webhookHandler env secret signature event body).2 = 0) := by
  unfold webhookHandler
  simp only [hv, hp, hid]
  cases ha : env.authenticateInstallation (i + 1) with
  | error u =>
    exact ⟨⟨[], rfl⟩, fun _ => ⟨rfl, rfl⟩⟩
  | ok u =>
    refine ⟨⟨routedTrace event, by rw [dispatchEvent_eq]; rfl⟩, fun hcontra => ?_⟩
    simp at hcontra

/-- Witness for C10: a push delivery (whose handler never uses the
credential) with installation id 42 and a failing exchange. -/
theorem C10_exchange_before_routing_witness :
    webhookHandler envAuthErr none none (some "push") [0] =
      (500, [.auth 42]) :=
  ((C10_exchange_before_routing envAuthErr none none (some "push") [0]
    ⟨some 42⟩ 41 rfl rfl rfl).2 rfl).1

/-- Claim C9 counterexample: a delivery that passes verification (no
secret configured) but whose body fails `JSON.parse` is answered 500,
although the credential exchange never ran — the empty trace shows no
exchange happened, let alone failed — refuting "500 only when tenant
credential-exchange fails before handler dispatch". -/
theorem C9_parse_failure_gives_500 :
    verifySignature [123] none none = .ok true ∧
    webhookHandler envParseErr none none (some "push") [123] = (500, []) :=
  ⟨rfl, rfl⟩

/-- Claim C9 amended: 401 exactly when verification returns false; 500
exactly when verification throws, or the body fails to parse, or the
required credential exchange fails (then with zero handler invocations),
or the routed handler throws an uncaught exception; 200 in every
remaining case, in particular unknown event types and handler failures
caught inside the handler. -/
theorem C9_status_mapping (env : Env) (secret signature : Option Bytes)
    (event : Option String) (body : Bytes) :
    ((webhookHandler env secret signature event body).1 = 401 ↔
      verifySignature body signature secret = .ok false) ∧
    ((webhookHandler env secret signature event body).1 = 500 ↔
      (verifySignature body signature secret = .error () ∨
       (verifySignature body signature secret = .ok true ∧
        (env.jsonParse body = .error () ∨
         (∃ data, env.jsonParse body = .ok data ∧
           ((∃ i, data.installationId = some (i + 1) ∧
              env.authenticateInstallation (i + 1) = .error ()) ∨
            routedHandler env event data = .error ())))))) ∧
    ((webhookHandler env secret signature event body).1 = 200 ∨
     (webhookHandler env secret signature event body).1 = 401 ∨
     (webhookHandler env secret signature event body).1 = 500) ∧
    (∀ data i, verifySignature body signature secret = .ok true →
      env.jsonParse body = .ok data → data.installationId = some (i + 1) →
      env.authenticateInstallation (i + 1) = .error () →
      webhookHandler env secret signature event body =
        (500, [.auth (i + 1)])) := by
  rcases hv : verifySignature body signature secret with u | b
  · cases u
    unfold webhookHandler
    simp [hv]
  · cases b
    · unfold webhookHandler
      simp [hv]
    · unfold webhookHandler
      rcases hp : env.jsonParse body with u | data
      · cases u
        simp [hv, hp]
      · rcases hid : data.installationId with _ | iid
        · simp only [hv, hp, hid]
          rw [dispatchEvent_eq]
          cases hr : routedHandler env event data with
          | ok v =>
            cases v
            simp [hv, hp, hid, hr]
            intro d i hd hi
            rw [← hd, hid] at hi
            exact Option.noConfusion hi
          | error v =>
            cases v
            simp [hv, hp, hid, hr]
            intro d i hd hi
            rw [← hd, hid] at hi
            exact Option.noConfusion hi
        · cases iid with
          | zero =>
            simp only [hv, hp, hid]
            rw [dispatchEvent_eq]
            cases hr : routedHandler env event data with
            | ok v =>
              cases v
              simp [hv, hp, hid, hr]
              intro d i hd hi
              rw [← hd, hid] at hi
              injection hi with h
              exact absurd h (by omega)
            | error v =>
              cases v
              simp [hv, hp, hid, hr]
              intro d i hd hi
              rw [← hd, hid] at hi
              injection hi with h
              exact absurd h (by omega)
          | succ i =>
            simp only [hv, hp, hid]
            cases ha : env.authenticateInstallation (i + 1) with
            | error v =>
              cases v
              simp [hv, hp, hid, ha]
              intro d i1 hd hi
              rw [← hd, hid] at hi
              injection hi with h
              intro _
              omega
            | ok v =>
              cases v
              rw [dispatchEvent_eq]
              cases hr : routedHandler env event data with
              | ok w =>
                cases w
                simp [hv, hp, hid, ha, hr]
                intro d i1 hd hi hcon
                rw [← hd, hid] at hi
                injection hi with h
                have hii : i1 = i := by omega
                rw [hii, ha] at hcon
                exact Except.noConfusion hcon
              | error w =>
                cases w
                simp [hv, hp, hid, ha, hr]
                intro d i1 hd hi hcon
                rw [← hd, hid] at hi
                injection hi with h
                have hii : i1 = i := by omega
                rw [hii, ha] at hcon
                exact Except.noConfusion hcon

/-- Witness for C9 amended, instantiating the 401, exchange-failure and
parse-failure branches at concrete deliveries. -/
theorem C9_status_mapping_witness :
    (webhookHandler envOk (some [115])
      (some (flipBitAt (expectedDigest [115] [0]) 0)) (some "issues") [0]).1 =
      401 ∧
    webhookHandler envAuthErr none none (some "installation") [0] =
      (500, [.auth 42]) ∧
    (webhookHandler envParseErr none none none [7]).1 = 500 := by
  refine ⟨?_, ?_, ?_⟩
  · exact (C9_status_mapping envOk (some [115])
      (some (flipBitAt (expectedDigest [115] [0]) 0)) (some "issues")
      [0]).1.mpr (by decide)
  · exact (C9_status_mapping envAuthErr none none (some "installation")
      [0]).2.2.2 ⟨some 42⟩ 41 rfl rfl rfl rfl
  · exact (C9_status_mapping envParseErr none none none [7]).2.1.mpr
      (Or.inr ⟨rfl, Or.inl rfl⟩)

/-- Claim C1 (code bug): with a configured secret, a missing or empty
signature header does not compare false — `crypto.timingSafeEqual`
throws a `RangeError`, because the 0-byte header buffer and the 71-byte
digest buffer differ in length, and `verifySignature` propagates the
throw (here, at secret "s" with the empty body, and at secret "sec" with
body "hi"). -/
theorem C1_missing_header_throws :
    verifySignature [] none (some [115]) = .error () ∧
    verifySignature [] (some []) (some [115]) = .error () ∧
    verifySignature [104, 105] none (some [115, 101, 99]) = .error () :=
  ⟨by decide, by decide, by decide⟩

/-- The lower-case hex digit map is injective (digit images `48..57` and
letter images `97..` never meet). -/
lemma hexDigit_injective {a b : Nat} (h : hexDigit a = hexDigit b) :
    a = b := by
  unfold hexDigit at h
  split at h <;> split at h <;> omega

/-- Hex rendering doubles the length. -/
lemma bytesToHex_length (bs : Bytes) :
    (bytesToHex bs).length = 2 * bs.length := by
  induction bs with
  | nil => rfl
  | cons b t ih =>
    simp [bytesToHex] at ih ⊢
    omega

/-- Hex rendering is injective: the two digits of a byte determine it. -/
lemma bytesToHex_injective : ∀ (xs ys : Bytes),
    bytesToHex xs = bytesToHex ys → xs = ys
  | [], [], _ => rfl
  | [], c :: u, h => by
    have hl := congrArg List.length h
    rw [bytesToHex_length, bytesToHex_length] at hl
    simp at hl
  | b :: t, [], h => by
    have hl := congrArg List.length h
    rw [bytesToHex_length, bytesToHex_length] at hl
    simp at hl
  | b :: t, c :: u, h => by
    simp only [bytesToHex, List.map_cons, List.flatten_cons,
      List.cons_append, List.nil_append, List.cons.injEq] at h
    obtain ⟨h1, h2, h3⟩ := h
    have e1 := hexDigit_injective h1
    have e2 := hexDigit_injective h2
    have hb : b = c := by omega
    have ht : t = u := bytesToHex_injective t u (by simpa [bytesToHex] using h3)
    rw [hb, ht]

/-- A bit flip never changes the length. -/
lemma flipBitAt_length (bs : Bytes) : ∀ i,
    (flipBitAt bs i).length = bs.length := by
  induction bs with
  | nil => intro i; rfl
  | cons b t ih =>
    intro i
    unfold flipBitAt
    by_cases h : i < 8 <;> simp [h, ih]

/-- XOR with a non-zero mask moves every number. -/
lemma xor_ne_self {b m : Nat} (hm : m ≠ 0) : b ^^^ m ≠ b := by
  intro h
  apply hm
  have h2 : b ^^^ (b ^^^ m) = b ^^^ b := congrArg (fun x => b ^^^ x) h
  rwa [← Nat.xor_assoc, Nat.xor_self, Nat.zero_xor] at h2

/-- A bit flip inside the string changes it. -/
lemma flipBitAt_ne (bs : Bytes) : ∀ i, i < 8 * bs.length →
    flipBitAt bs i ≠ bs := by
  induction bs with
  | nil => intro i h; simp at h
  | cons b t ih =>
    intro i h
    unfold flipBitAt
    by_cases hb : i < 8
    · simp only [hb, if_true]
      intro he
      injection he with h1 h2
      exact xor_ne_self (Nat.pos_iff_ne_zero.mp (by
        rw [Nat.one_shiftLeft]; exact Nat.two_pow_pos i)) h1
    · simp only [hb, if_false]
      intro he
      injection he with h1 h2
      refine ih (i - 8) ?_ h2
      simp only [List.length_cons] at h
      omega

/-- One compression round preserves the 8-word state shape. -/
lemma roundStep_length (st : List Nat) (wk : Nat × Nat) :
    (roundStep st wk).length = st.length := by
  unfold roundStep
  split <;> simp

/-- Folding rounds preserves the state length. -/
lemma foldl_roundStep_length (l : List (Nat × Nat)) :
    ∀ st : List Nat, (l.foldl roundStep st).length = st.length := by
  induction l with
  | nil => intro st; rfl
  | cons p t ih => intro st; rw [List.foldl_cons, ih, roundStep_length]

/-- Compressing a block preserves the 8-word hash value. -/
lemma compressBlock_length (hs : List Nat) (block : Bytes)
    (h : hs.length = 8) : (compressBlock hs block).length = 8 := by
  unfold compressBlock
  rw [List.length_map, List.length_zip, foldl_roundStep_length, h]
  simp

/-- Folding compressions preserves the 8-word hash value. -/
lemma foldl_compressBlock_length (blocks : List Bytes) :
    ∀ hs : List Nat, hs.length = 8 →
      (blocks.foldl compressBlock hs).length = 8 := by
  induction blocks with
  | nil => intro hs h; exact h
  | cons b t ih =>
    intro hs h
    rw [List.foldl_cons]
    exact ih _ (compressBlock_length hs b h)

/-- Unpacking words quadruples the length. -/
lemma wordsToBytes_length (ws : List Nat) :
    (wordsToBytes ws).length = 4 * ws.length := by
  induction ws with
  | nil => rfl
  | cons w t ih =>
    simp only [wordsToBytes, List.map_cons, List.flatten_cons,
      List.length_append, List.length_cons] at ih ⊢
    simp [wordToBytes] at ih ⊢
    omega

/-- SHA-256 always emits 32 bytes. -/
lemma sha256_length (msg : Bytes) : (sha256 msg).length = 32 := by
  have h8 := foldl_compressBlock_length
    (splitBlocks (padMessage msg).length (padMessage msg)) sha256InitH rfl
  unfold sha256
  rw [wordsToBytes_length, h8]

/-- HMAC-SHA256 always emits 32 bytes. -/
lemma hmacSha256_length (key msg : Bytes) :
    (hmacSha256 key msg).length = 32 := by
  unfold hmacSha256
  exact sha256_length _

/-- The compared digest string is always 71 bytes: 7 for `sha256=`, 64
for the hex MAC. -/
lemma expectedDigest_length (secret payload : Bytes) :
    (expectedDigest secret payload).length = 71 := by
  unfold expectedDigest
  rw [List.length_append, bytesToHex_length, hmacSha256_length]
  rfl

/-- Different MACs give different digest strings. -/
lemma expectedDigest_ne {s b b' : Bytes}
    (h : hmacSha256 s b' ≠ hmacSha256 s b) :
    expectedDigest s b' ≠ expectedDigest s b := by
  intro he
  unfold expectedDigest at he
  exact h (bytesToHex_injective _ _ (List.append_cancel_left he))

/-- Claim C2: with no secret configured, verification passes
unconditionally; with a configured (truthy) secret it returns true for
exactly one header — `"sha256=" ++` the lower-case hex HMAC-SHA256 of
the body — flipping any bit of that header yields false, and flipping
any bit of the body yields false whenever the flipped body's MAC
differs from the original's (the digest-inequality hypothesis is the
single-bit collision-freeness of HMAC-SHA256 that the unconditional
claim presumes; the witness discharges it on concrete inputs). -/
theorem C2_verify_exact (body s : Bytes) (hs : s ≠ []) :
    (∀ (b : Bytes) (sig : Option Bytes),
      verifySignature b sig none = .ok true) ∧
    (∀ sig : Option Bytes,
      verifySignature body sig (some s) = .ok true ↔
        sig = some (expectedDigest s body)) ∧
    (∀ i, i < 8 * (expectedDigest s body).length →
      verifySignature body (some (flipBitAt (expectedDigest s body) i))
        (some s) = .ok false) ∧
    (∀ i, i < 8 * body.length →
      hmacSha256 s (flipBitAt body i) ≠ hmacSha256 s body →
      verifySignature (flipBitAt body i) (some (expectedDigest s body))
        (some s) = .ok false) := by
  obtain ⟨c, s', rfl⟩ := List.exists_cons_of_ne_nil hs
  have hred : ∀ (b : Bytes) (sig : Option Bytes),
      verifySignature b sig (some (c :: s')) =
        timingSafeEqual (sig.getD []) (expectedDigest (c :: s') b) :=
    fun b sig => rfl
  refine ⟨fun b sig => rfl, fun sig => ?_, fun i hi => ?_, fun i hi hne => ?_⟩
  · rw [hred]
    unfold timingSafeEqual
    constructor
    · intro h
      split at h
      · injection h with h'
        have heq : sig.getD [] = expectedDigest (c :: s') body :=
          of_decide_eq_true h'
        cases sig with
        | none =>
          exfalso
          have hlen := congrArg List.length heq
          rw [expectedDigest_length] at hlen
          simp at hlen
        | some l => simpa using heq
      · exact Except.noConfusion h
    · intro h
      subst h
      simp
  · rw [hred]
    unfold timingSafeEqual
    have hlen : (flipBitAt (expectedDigest (c :: s') body) i).length =
        (expectedDigest (c :: s') body).length := flipBitAt_length _ i
    rw [Option.getD_some, if_pos hlen,
      decide_eq_false (flipBitAt_ne _ i hi)]
  · rw [hred]
    unfold timingSafeEqual
    have hlen : (expectedDigest (c :: s') body).length =
        (expectedDigest (c :: s') (flipBitAt body i)).length := by
      rw [expectedDigest_length, expectedDigest_length]
    rw [Option.getD_some, if_pos hlen,
      decide_eq_false (Ne.symm (expectedDigest_ne hne))]

/-- Witness for C2: secret "s", body `[0]`: the correct digest header
verifies; flipping bit 3 of the header or bit 0 of the body (whose MAC
concretely differs) fails closed; and with no secret, even an empty
header passes. -/
theorem C2_verify_exact_witness :
    verifySignature [0] (some (expectedDigest [115] [0])) (some [115]) =
      .ok true ∧
    verifySignature [0] (some (flipBitAt (expectedDigest [115] [0]) 3))
      (some [115]) = .ok false ∧
    verifySignature (flipBitAt [0] 0) (some (expectedDigest [115] [0]))
      (some [115]) = .ok false ∧
    verifySignature [0] (some []) none = .ok true := by
  have h := C2_verify_exact [0] [115] (by decide)
  exact ⟨(h.2.1 _).mpr rfl, h.2.2.1 3 (by decide),
    h.2.2.2 0 (by decide) (by decide), h.1 [0] (some [])⟩

end GitHubAppTemplate
